import Mathlib

/-!
Verification of the FraudDetectionService location-telemetry engine.

Shallow embedding of `FraudDetectionService` (src/unnamed/part_000) into
Lean 4.  JavaScript numbers are modelled as rationals (`ℚ`); all concrete
comparisons the theorems evaluate are far from binary-float rounding
boundaries, so the rational model agrees with the IEEE-double behaviour of
the source on every input considered.  The mutable class fields
`locationHistory` and `tileExplorationHistory` are modelled as an explicit
state record threaded through the operations.  `Date.now()` inside
`checkExplorationRate` is modelled by passing the current time as an
argument.  The fire-and-forget `AnalyticsService.trackSuspiciousActivity`
emissions are side effects on an external collaborator and are not part of
the returned values; they are omitted from the embedding.

The distance helper `haversine` is imported from `../../utils/coordinate`,
a file that is not part of the sources; every definition that needs it is
therefore parametric in a distance function `hav`.
-/

namespace FraudDetection

/-- The `LocationPoint` interface of the source: one GPS reading.
`{latitude, longitude, timestamp, accuracy, speed?}`. -/
structure LocationPoint where
  latitude : ℚ
  longitude : ℚ
  timestamp : ℚ
  accuracy : ℚ
  speed : Option ℚ := none
deriving DecidableEq, Repr

/-- Record pushed by `checkExplorationRate`: `{tileId, timestamp}`. -/
structure TileRecord where
  tileId : String
  timestamp : ℚ
deriving DecidableEq, Repr

/-- Result of `analyzeMovementPatterns`. -/
structure MovementPatterns where
  perfectTiming : Bool
  unnaturalPrecision : Bool
  repetitiveMovement : Bool
  averageInterval : ℚ
  intervalVariance : ℚ
deriving DecidableEq, Repr

/-- The `details` payloads the source attaches to its results.  The source
stores them in an untyped `details: any` field; each constructor below
carries exactly the keys the corresponding object literal in the source
carries. -/
inductive Details where
  /-- the `details: null` payload -/
  | null : Details
  /-- `{calculated_speed, max_allowed_speed, distance, time_diff}` -/
  | speed (calculated_speed max_allowed_speed distance time_diff : ℚ) : Details
  /-- `{accuracy, required_accuracy}` -/
  | accuracy (accuracy required_accuracy : ℚ) : Details
  /-- `{duplicate_count, coordinate}` -/
  | pattern (duplicate_count : ℕ) (coordinate : ℚ × ℚ) : Details
  /-- `{distance, time_diff, from, to}` -/
  | teleport (distance time_diff : ℚ) (src dst : ℚ × ℚ) : Details
  /-- `{tilesPerMinute, threshold}` -/
  | exploration (tilesPerMinute : ℕ) (threshold : ℕ) : Details
  /-- the `patterns` object of `checkAutomationPattern` -/
  | automation (patterns : MovementPatterns) : Details
deriving DecidableEq, Repr

/-- The source's `SuspiciousActivityResult`, for the individual checks. -/
structure CheckOutcome where
  isSuspicious : Bool
  reason : String
  riskScore : ℚ
  details : Details
deriving DecidableEq, Repr

/-- The `SuspiciousActivityResult` returned by `checkLocationValidity`:
its `details` field is either `null` or the array `suspiciousChecks`. -/
structure LocationVerdict where
  isSuspicious : Bool
  reason : String
  riskScore : ℚ
  details : Option (List CheckOutcome)
deriving DecidableEq, Repr

/-- The mutable fields of the `FraudDetectionService` class instance. -/
structure FraudState where
  locationHistory : List LocationPoint
  tileExplorationHistory : List TileRecord
deriving DecidableEq, Repr

/-- Fresh instance: both arrays empty. -/
def initialState : FraudState := ⟨[], []⟩

/-- Constant `MAX_HISTORY = 100`. -/
def MAX_HISTORY : ℕ := 100

/-- Constant `MAX_HUMAN_SPEED = 50` (km/h). -/
def MAX_HUMAN_SPEED : ℚ := 50

/-- Constant `MIN_LOCATION_ACCURACY = 100` (meters). -/
def MIN_LOCATION_ACCURACY : ℚ := 100

/-- Constant `RAPID_EXPLORATION_THRESHOLD = 8` (tiles per minute). -/
def RAPID_EXPLORATION_THRESHOLD : ℕ := 8

/-- Model of `Math.abs`, written so that it reduces under kernel
evaluation (Mathlib's bundled `abs` on `ℚ` does not). -/
def ratAbs (q : ℚ) : ℚ := if q < 0 then -q else q

/-- Source `addLocationToHistory`: push, then `shift()` once if the length
exceeds `MAX_HISTORY`. -/
def addLocationToHistory (history : List LocationPoint)
    (location : LocationPoint) : List LocationPoint :=
  let pushed := history ++ [location]
  if pushed.length > MAX_HISTORY then pushed.tail else pushed

/-- Source `getLocationHistory`: returns (a copy of) the history array. -/
def getLocationHistory (st : FraudState) : List LocationPoint :=
  st.locationHistory

/-- Source `clearHistory`: empties both arrays. -/
def clearHistory (_st : FraudState) : FraudState := initialState

/-- The suspicion test of `checkImpossibleSpeed`:
`speed > this.MAX_HUMAN_SPEED && timeDiff > 5`.  Isolated so that theorems
can show the outcome does not depend on the value the division produced
whenever `timeDiff ≤ 5` (in particular at `timeDiff = 0`, where IEEE
arithmetic yields `NaN` or `±Infinity`: both satisfy neither `NaN > 50`
being relevant nor `timeDiff > 5`, so the JavaScript conjunction is false
exactly as here). -/
def speedSuspicious (speed timeDiff : ℚ) : Bool :=
  decide (speed > MAX_HUMAN_SPEED) && decide (timeDiff > 5)

/-- Source `checkImpossibleSpeed`, parametric in the distance function `hav`
standing for the imported `haversine`. -/
def checkImpossibleSpeed (hav : ℚ → ℚ → ℚ → ℚ → ℚ)
    (history : List LocationPoint) (newLocation : LocationPoint) :
    CheckOutcome :=
  match history.getLast? with
  | none => ⟨false, "no_previous_location", 0, .null⟩
  | some lastLocation =>
    let distance := hav lastLocation.latitude lastLocation.longitude
        newLocation.latitude newLocation.longitude
    let timeDiff := (newLocation.timestamp - lastLocation.timestamp) / 1000
    let speed := distance * 1000 / timeDiff * (36 / 10)
    if speedSuspicious speed timeDiff then
      ⟨true, "impossible_speed",
        min 90 (50 + (speed - MAX_HUMAN_SPEED)),
        .speed speed MAX_HUMAN_SPEED distance timeDiff⟩
    else
      ⟨false, "speed_normal", 0, .null⟩

/-- Source `checkLocationAccuracy`. -/
def checkLocationAccuracy (location : LocationPoint) : CheckOutcome :=
  if location.accuracy > MIN_LOCATION_ACCURACY then
    ⟨true, "poor_accuracy", 30,
      .accuracy location.accuracy MIN_LOCATION_ACCURACY⟩
  else
    ⟨false, "accuracy_good", 0, .null⟩

/-- The coordinate-closeness test of `checkMovementPattern`:
both axes differ by less than `0.000001`. -/
def nearIdentical (loc newLocation : LocationPoint) : Bool :=
  decide (ratAbs (loc.latitude - newLocation.latitude) < 1 / 1000000) &&
  decide (ratAbs (loc.longitude - newLocation.longitude) < 1 / 1000000)

/-- Source `checkMovementPattern`. -/
def checkMovementPattern (history : List LocationPoint)
    (newLocation : LocationPoint) : CheckOutcome :=
  if history.length < 5 then
    ⟨false, "insufficient_pattern_data", 0, .null⟩
  else
    let duplicates := history.filter (fun loc => nearIdentical loc newLocation)
    if duplicates.length > 3 then
      ⟨true, "identical_coordinates", 70,
        .pattern duplicates.length (newLocation.latitude, newLocation.longitude)⟩
    else
      ⟨false, "pattern_normal", 0, .null⟩

/-- Source `checkTeleportation`, parametric in the distance function. -/
def checkTeleportation (hav : ℚ → ℚ → ℚ → ℚ → ℚ)
    (history : List LocationPoint) (newLocation : LocationPoint) :
    CheckOutcome :=
  match history.getLast? with
  | none => ⟨false, "no_previous_location", 0, .null⟩
  | some lastLocation =>
    let distance := hav lastLocation.latitude lastLocation.longitude
        newLocation.latitude newLocation.longitude
    let timeDiff := (newLocation.timestamp - lastLocation.timestamp) / 1000
    if decide (distance > 1) && decide (timeDiff < 2) then
      ⟨true, "teleportation", 95,
        .teleport distance timeDiff
          (lastLocation.latitude, lastLocation.longitude)
          (newLocation.latitude, newLocation.longitude)⟩
    else
      ⟨false, "movement_normal", 0, .null⟩

/-- Model of `Math.max(...xs)` for the nonempty argument lists the source feeds it. -/
def jsMax : List ℚ → ℚ
  | [] => 0
  | x :: xs => xs.foldl max x

/-- The "Comprehensive assessment" block of `checkLocationValidity`
(source lines 42-75), factored out over the list
`[speedCheck, accuracyCheck, patternCheck, teleportCheck]`. -/
def aggregateChecks (checks : List CheckOutcome) : LocationVerdict :=
  let suspiciousChecks := checks.filter (fun check => check.isSuspicious)
  if suspiciousChecks.length > 0 then
    let maxRiskScore := jsMax (suspiciousChecks.map (fun check => check.riskScore))
    let primaryReason :=
      ((suspiciousChecks.find?
          (fun check => decide (check.riskScore = maxRiskScore))).map
        (fun check => check.reason)).getD ("unknown")
    ⟨true, primaryReason, maxRiskScore, some suspiciousChecks⟩
  else
    ⟨false, "location_valid", 0, none⟩

/-- Source `checkLocationValidity`: appends the sample to the history, runs the
four checks against the updated state, and aggregates.  Returns the
verdict together with the updated state. -/
def checkLocationValidity (hav : ℚ → ℚ → ℚ → ℚ → ℚ)
    (st : FraudState) (newLocation : LocationPoint) :
    LocationVerdict × FraudState :=
  let history := addLocationToHistory st.locationHistory newLocation
  let speedCheck := checkImpossibleSpeed hav history newLocation
  let accuracyCheck := checkLocationAccuracy newLocation
  let patternCheck := checkMovementPattern history newLocation
  let teleportCheck := checkTeleportation hav history newLocation
  (aggregateChecks [speedCheck, accuracyCheck, patternCheck, teleportCheck],
    ⟨history, st.tileExplorationHistory⟩)

/-- Source `checkExplorationRate`; the argument `now` stands for `Date.now()`. -/
def checkExplorationRate (st : FraudState) (tileId : String) (now : ℚ) :
    CheckOutcome × FraudState :=
  let pushed := st.tileExplorationHistory ++ [⟨tileId, now⟩]
  let oneHourAgo := now - 60 * 60 * 1000
  let kept := pushed.filter (fun record => decide (record.timestamp > oneHourAgo))
  let oneMinuteAgo := now - 60 * 1000
  let recentExplorations :=
    kept.filter (fun record => decide (record.timestamp > oneMinuteAgo))
  let st' : FraudState := ⟨st.locationHistory, kept⟩
  if recentExplorations.length > RAPID_EXPLORATION_THRESHOLD then
    (⟨true, "rapid_exploration", 85,
      .exploration recentExplorations.length RAPID_EXPLORATION_THRESHOLD⟩, st')
  else
    (⟨false, "exploration_rate_normal", 0, .null⟩, st')

/-- Source `detectRepetitivePattern`: compare `slice(0,3)` to `slice(3,6)`
pointwise within `0.0001` on both axes. -/
def detectRepetitivePattern (locations : List LocationPoint) : Bool :=
  if locations.length < 6 then false
  else
    let pattern := locations.take 3
    let nextPattern := (locations.drop 3).take 3
    (pattern.zip nextPattern).all (fun p =>
      decide (ratAbs (p.1.latitude - p.2.latitude) < 1 / 10000) &&
      decide (ratAbs (p.1.longitude - p.2.longitude) < 1 / 10000))

/-- Consecutive timestamp differences of `analyzeMovementPatterns`. -/
def timeIntervalsOf (locations : List LocationPoint) : List ℚ :=
  (locations.zip locations.tail).map (fun p => p.2.timestamp - p.1.timestamp)

/-- Consecutive haversine step distances of `analyzeMovementPatterns`. -/
def distancesOf (hav : ℚ → ℚ → ℚ → ℚ → ℚ)
    (locations : List LocationPoint) : List ℚ :=
  (locations.zip locations.tail).map (fun p =>
    hav p.1.latitude p.1.longitude p.2.latitude p.2.longitude)

/-- Source `analyzeMovementPatterns` over `locationHistory.slice(-20)`. -/
def analyzeMovementPatterns (hav : ℚ → ℚ → ℚ → ℚ → ℚ)
    (history : List LocationPoint) : MovementPatterns :=
  let recentLocations := history.drop (history.length - 20)
  let timeIntervals := timeIntervalsOf recentLocations
  let avgInterval :=
    timeIntervals.foldl (· + ·) 0 / (timeIntervals.length : ℚ)
  let intervalVariance :=
    (timeIntervals.foldl (fun sum interval => sum + (interval - avgInterval) ^ 2) 0) /
      (timeIntervals.length : ℚ)
  let distances := distancesOf hav recentLocations
  { perfectTiming := decide (intervalVariance < 100)
    unnaturalPrecision :=
      distances.all (fun d => decide (d > 0) && decide (d < 1 / 1000))
    repetitiveMovement := detectRepetitivePattern recentLocations
    averageInterval := avgInterval
    intervalVariance := intervalVariance }

/-- Source `checkAutomationPattern`. -/
def checkAutomationPattern (hav : ℚ → ℚ → ℚ → ℚ → ℚ)
    (st : FraudState) : CheckOutcome :=
  if st.locationHistory.length < 10 then
    ⟨false, "insufficient_data", 0, .null⟩
  else
    let patterns := analyzeMovementPatterns hav st.locationHistory
    if patterns.perfectTiming || patterns.unnaturalPrecision ||
        patterns.repetitiveMovement then
      ⟨true, "automation_detected", 95, .automation patterns⟩
    else
      ⟨false, "human_behavior", 0, .automation patterns⟩

/-- Modelled from the spec: the real `haversine` lives in
`utils/coordinate`, which is absent from the sources; the spec (§ glossary)
only fixes it as a great-circle distance in km, in particular zero between
identical points.  This executable surrogate is used to instantiate the
`hav` parameter in concrete witnesses and counterexamples; every theorem
below that depends on a property of the distance function assumes only
zero self-distance, which any distance satisfies. -/
def havFlat (lat1 lon1 lat2 lon2 : ℚ) : ℚ :=
  ratAbs (lat2 - lat1) + ratAbs (lon2 - lon1)

/-! ## Spec-side definitions

Definitions in this section are written from the specification's words, to
be compared against the source-side definitions above. -/

/-- Spec-side: the reason code of the **first** suspicious outcome, in
evaluation order, whose risk score equals `m` (spec §4.6, §3 invariants). -/
def firstMaxReason (m : ℚ) : List CheckOutcome → Option String
  | [] => none
  | check :: rest =>
    if check.isSuspicious = true ∧ check.riskScore = m then some check.reason
    else firstMaxReason m rest

/-- Spec-side: the maximum of the nonempty score list `x :: xs`. -/
def maxScoreSpec (x : ℚ) (xs : List ℚ) : ℚ := xs.foldr max x

/-- Spec-side aggregation rule (§4.6): filter to suspicious outcomes; if
none, the valid verdict; otherwise the maximum suspicious score, the
stable-first-match primary reason, and the suspicious outcomes as
contributing checks.  (The `getD` fallback is never taken: the maximum is
attained by some suspicious outcome.) -/
def aggregateSpec (checks : List CheckOutcome) : LocationVerdict :=
  match checks.filter (fun check => check.isSuspicious) with
  | [] => ⟨false, "location_valid", 0, none⟩
  | c :: cs =>
    let maxScore := maxScoreSpec c.riskScore (cs.map (fun check => check.riskScore))
    ⟨true, (firstMaxReason maxScore checks).getD c.reason, maxScore, some (c :: cs)⟩

/-! ## Helper lemmas -/

lemma foldr_max_swap (a x : ℚ) (l : List ℚ) :
    l.foldr max (max a x) = max x (l.foldr max a) := by
  induction l with
  | nil => exact max_comm a x
  | cons y l ih => simp only [List.foldr_cons, ih, max_left_comm]

lemma foldl_max_eq_foldr (l : List ℚ) (a : ℚ) :
    l.foldl max a = l.foldr max a := by
  induction l generalizing a with
  | nil => rfl
  | cons x l ih => simp only [List.foldl_cons, List.foldr_cons, ih, foldr_max_swap]

lemma init_le_foldr_max (l : List ℚ) (a : ℚ) : a ≤ l.foldr max a := by
  induction l with
  | nil => exact le_refl a
  | cons x l ih => exact le_trans ih (le_max_right x _)

lemma mem_le_foldr_max (l : List ℚ) (a : ℚ) :
    ∀ x ∈ l, x ≤ l.foldr max a := by
  induction l with
  | nil => intro x hx; cases hx
  | cons y l ih =>
    intro x hx
    rcases List.mem_cons.mp hx with h | h
    · rw [h]; exact le_max_left y _
    · exact le_trans (ih x h) (le_max_right y _)

lemma foldr_max_mem (l : List ℚ) (a : ℚ) :
    l.foldr max a = a ∨ l.foldr max a ∈ l := by
  induction l with
  | nil => exact Or.inl rfl
  | cons y l ih =>
    simp only [List.foldr_cons]
    rcases le_total y (l.foldr max a) with h | h
    · rw [max_eq_right h]
      rcases ih with h1 | h1
      · exact Or.inl h1
      · exact Or.inr (List.mem_cons_of_mem y h1)
    · rw [max_eq_left h]
      exact Or.inr (List.mem_cons_self y l)

lemma find_filter_eq_firstMaxReason (m : ℚ) (checks : List CheckOutcome) :
    (((checks.filter (fun check => check.isSuspicious)).find?
        (fun check => decide (check.riskScore = m))).map
      (fun check => check.reason)) = firstMaxReason m checks := by
  induction checks with
  | nil => rfl
  | cons c cs ih =>
    by_cases hs : c.isSuspicious
    · rw [List.filter_cons_of_pos (by simpa using hs)]
      by_cases hm : c.riskScore = m
      · rw [List.find?_cons_of_pos _ (by simpa using hm)]
        simp [firstMaxReason, hs, hm]
      · rw [List.find?_cons_of_neg _ (by simpa using hm)]
        rw [ih]
        simp [firstMaxReason, hm]
    · rw [List.filter_cons_of_neg (by simpa using hs)]
      rw [ih]
      simp [firstMaxReason, hs]

lemma aggregateChecks_eq_spec (checks : List CheckOutcome) :
    aggregateChecks checks = aggregateSpec checks := by
  unfold aggregateChecks aggregateSpec
  cases hf : checks.filter (fun check => check.isSuspicious) with
  | nil => simp
  | cons c cs =>
    have hmax : jsMax ((c :: cs).map (fun check => check.riskScore)) =
        maxScoreSpec c.riskScore (cs.map (fun check => check.riskScore)) := by
      simp only [jsMax, maxScoreSpec, List.map_cons, foldl_max_eq_foldr]
    have hmem : ∃ d ∈ c :: cs,
        d.riskScore = maxScoreSpec c.riskScore (cs.map (fun check => check.riskScore)) := by
      simp only [maxScoreSpec]
      rcases foldr_max_mem (cs.map (fun check => check.riskScore)) c.riskScore with h | h
      · exact ⟨c, List.mem_cons_self c cs, h.symm⟩
      · rcases List.mem_map.mp h with ⟨d, hd, hds⟩
        exact ⟨d, List.mem_cons_of_mem c hd, hds⟩
    rcases hmem with ⟨d, hd, hds⟩
    have hsome : ∃ r, (c :: cs).find?
        (fun check => decide (check.riskScore =
          maxScoreSpec c.riskScore (cs.map (fun check => check.riskScore)))) = some r := by
      rw [← Option.isSome_iff_exists, List.find?_isSome]
      exact ⟨d, hd, by simpa using hds⟩
    rcases hsome with ⟨r, hr⟩
    have hfind := find_filter_eq_firstMaxReason
      (maxScoreSpec c.riskScore (cs.map (fun check => check.riskScore))) checks
    rw [hf, hr] at hfind
    simp only [hf, hmax, ← hfind, hr, List.length_cons, Option.map_some, Option.getD_some]
    simp

/-! ## C1 -/

/-- **C1**: for every state and sample, `checkLocationValidity` computes
exactly the spec's max-score-with-stable-tie-break aggregation of the four
guards run in the fixed order speed, accuracy, pattern, teleport (against
the history as updated by the append); no suspicious guard gives the
`location_valid` zero verdict, otherwise the risk score is the maximum
suspicious score and the primary reason is the reason code of the first
suspicious outcome, in evaluation order, attaining that maximum. -/
theorem checkLocationValidity_eq_aggregateSpec (hav : ℚ → ℚ → ℚ → ℚ → ℚ)
    (st : FraudState) (newLocation : LocationPoint) :
    (checkLocationValidity hav st newLocation).1 =
      aggregateSpec
        [checkImpossibleSpeed hav (addLocationToHistory st.locationHistory newLocation) newLocation,
         checkLocationAccuracy newLocation,
         checkMovementPattern (addLocationToHistory st.locationHistory newLocation) newLocation,
         checkTeleportation hav (addLocationToHistory st.locationHistory newLocation) newLocation] := by
  simpa only [checkLocationValidity] using aggregateChecks_eq_spec _

/-! ## History lemmas -/

lemma getLast?_addLocationToHistory (history : List LocationPoint)
    (s : LocationPoint) :
    (addLocationToHistory history s).getLast? = some s := by
  simp only [addLocationToHistory]
  split
  case isTrue h =>
    cases history with
    | nil => simp [MAX_HISTORY] at h
    | cons a t => simp
  case isFalse h => simp

lemma addLocationToHistory_eq_drop (history : List LocationPoint)
    (s : LocationPoint) (h : history.length ≤ MAX_HISTORY) :
    addLocationToHistory history s =
      (history ++ [s]).drop (history.length + 1 - MAX_HISTORY) := by
  unfold addLocationToHistory
  simp only [MAX_HISTORY] at h ⊢
  by_cases hc : history.length + 1 > 100
  · rw [if_pos (by simpa using hc)]
    have h100 : history.length = 100 := by omega
    rw [h100]
    norm_num
  · rw [if_neg (by simpa using hc)]
    have h0 : history.length + 1 - 100 = 0 := by omega
    rw [h0, List.drop_zero]

lemma addLocationToHistory_length (history : List LocationPoint)
    (s : LocationPoint) (h : history.length ≤ MAX_HISTORY) :
    (addLocationToHistory history s).length =
      min (history.length + 1) MAX_HISTORY := by
  rw [addLocationToHistory_eq_drop history s h, List.length_drop]
  simp only [List.length_append, List.length_cons, List.length_nil,
    MAX_HISTORY]
  omega

/-- Repeated appends: a sequence of `addLocationToHistory` calls. -/
def appendAll (history : List LocationPoint)
    (samples : List LocationPoint) : List LocationPoint :=
  samples.foldl addLocationToHistory history

lemma appendAll_eq_drop :
    ∀ (samples history : List LocationPoint),
      history.length ≤ MAX_HISTORY →
      appendAll history samples =
        (history ++ samples).drop
          (history.length + samples.length - MAX_HISTORY) := by
  intro samples
  induction samples with
  | nil =>
    intro history h
    have h0 : history.length - MAX_HISTORY = 0 := by
      simp only [MAX_HISTORY] at h ⊢
      omega
    simp [appendAll, h0]
  | cons x xs ih =>
    intro history h
    have hlen : (addLocationToHistory history x).length ≤ MAX_HISTORY := by
      rw [addLocationToHistory_length history x h]
      exact min_le_right _ _
    have hstep : appendAll history (x :: xs) =
        appendAll (addLocationToHistory history x) xs := rfl
    rw [hstep, ih _ hlen]
    by_cases hc : history.length < MAX_HISTORY
    · have hadd : addLocationToHistory history x = history ++ [x] := by
        unfold addLocationToHistory
        rw [if_neg]
        simp only [List.length_append, List.length_cons, List.length_nil,
          MAX_HISTORY] at hc ⊢
        omega
      rw [hadd, List.append_assoc]
      have hidx : (history ++ [x]).length + xs.length - MAX_HISTORY =
          history.length + (x :: xs).length - MAX_HISTORY := by
        simp only [List.length_append, List.length_cons, List.length_nil]
        omega
      rw [hidx]
      rfl
    · have h100 : history.length = 100 := by
        simp only [MAX_HISTORY] at h hc
        omega
      obtain ⟨a, t, rfl⟩ : ∃ a t, history = a :: t := by
        cases history with
        | nil => simp at h100
        | cons a t => exact ⟨a, t, rfl⟩
      have ht : t.length = 99 := by
        simp only [List.length_cons] at h100
        omega
      have hadd : addLocationToHistory (a :: t) x = t ++ [x] := by
        unfold addLocationToHistory
        rw [if_pos]
        · simp
        · simp only [List.length_append, List.length_cons, List.length_nil,
            MAX_HISTORY, ht]
          omega
      rw [hadd]
      have hidx1 : (t ++ [x]).length + xs.length - MAX_HISTORY = xs.length := by
        simp only [List.length_append, List.length_cons, List.length_nil,
          MAX_HISTORY, ht]
        omega
      have hidx2 : (a :: t).length + (x :: xs).length - MAX_HISTORY =
          xs.length + 1 := by
        simp only [List.length_cons, MAX_HISTORY, ht]
        omega
      rw [hidx1, hidx2]
      have hL : (t ++ [x]) ++ xs = t ++ x :: xs := by simp
      have hR : (a :: t) ++ x :: xs = a :: (t ++ x :: xs) := by simp
      rw [hL, hR, List.drop_succ_cons]

/-! ## C10 -/

/-- **C10**: every call of the per-sample evaluation appends the submitted
sample to the location history before any guard runs (the verdict is the
aggregation of the four guards evaluated against the already-updated
history), it does so regardless of whether the verdict is suspicious (the
state equation below is unconditional), the oldest entry is evicted when
the 100-sample bound is exceeded (the `drop` characterisation), and the
tile-visit tracker is left unchanged. -/
theorem evaluateLocation_frame_effect (hav : ℚ → ℚ → ℚ → ℚ → ℚ)
    (st : FraudState) (s : LocationPoint) :
    (checkLocationValidity hav st s).2 =
      ⟨addLocationToHistory st.locationHistory s, st.tileExplorationHistory⟩ ∧
    (checkLocationValidity hav st s).1 =
      aggregateChecks
        [checkImpossibleSpeed hav (addLocationToHistory st.locationHistory s) s,
         checkLocationAccuracy s,
         checkMovementPattern (addLocationToHistory st.locationHistory s) s,
         checkTeleportation hav (addLocationToHistory st.locationHistory s) s] ∧
    (st.locationHistory.length ≤ MAX_HISTORY →
      (checkLocationValidity hav st s).2.locationHistory =
        (st.locationHistory ++ [s]).drop
          (st.locationHistory.length + 1 - MAX_HISTORY)) := by
  refine ⟨rfl, rfl, fun h => ?_⟩
  exact addLocationToHistory_eq_drop st.locationHistory s h

/-- Closed instance of the C10 frame-effect theorem at a concrete input. -/
theorem evaluateLocation_frame_effect_witness :
    (checkLocationValidity havFlat initialState
        (⟨0, 0, 0, 10, none⟩ : LocationPoint)).2.locationHistory =
      (([] : List LocationPoint) ++ [(⟨0, 0, 0, 10, none⟩ : LocationPoint)]).drop
        ((0 : ℕ) + 1 - MAX_HISTORY) :=
  (evaluateLocation_frame_effect havFlat initialState
      (⟨0, 0, 0, 10, none⟩ : LocationPoint)).2.2
    (by simp [initialState, MAX_HISTORY])

/-! ## C4 -/

/-- **C4**: for every sequence of appended samples, `getLocationHistory`
returns exactly the last `min(n, 100)` samples in their original insertion
order (the suffix obtained by dropping `n - 100` from the front: oldest
evicted first, no reordering); in particular after 150 appends the history
has length exactly 100 and holds samples 51 through 150 in arrival
order. -/
theorem getHistory_bounded_roundtrip :
    (∀ (samples : List LocationPoint) (tiles : List TileRecord),
        getLocationHistory ⟨appendAll [] samples, tiles⟩ =
          samples.drop (samples.length - MAX_HISTORY) ∧
        (getLocationHistory ⟨appendAll [] samples, tiles⟩).length =
          min samples.length MAX_HISTORY) ∧
    (∀ samples : List LocationPoint, samples.length = 150 →
        appendAll [] samples = samples.drop 50 ∧
        (appendAll [] samples).length = 100) := by
  have key : ∀ samples : List LocationPoint,
      appendAll [] samples = samples.drop (samples.length - MAX_HISTORY) := by
    intro samples
    have h := appendAll_eq_drop samples [] (by simp [MAX_HISTORY])
    simpa using h
  constructor
  · intro samples tiles
    refine ⟨key samples, ?_⟩
    show (appendAll [] samples).length = _
    rw [key samples, List.length_drop]
    simp only [MAX_HISTORY]
    omega
  · intro samples h150
    rw [key samples, h150]
    constructor
    · norm_num [MAX_HISTORY]
    · rw [List.length_drop, h150]
      norm_num [MAX_HISTORY]

/-- List of 150 distinct samples used to instantiate C4's 150-append
scenario. -/
def sample150 : List LocationPoint :=
  (List.range 150).map (fun i => ⟨(i : ℚ), (i : ℚ), (i : ℚ), 10, none⟩)

/-- Closed instance of C4's 150-append scenario. -/
theorem getHistory_bounded_roundtrip_witness :
    appendAll [] sample150 = sample150.drop 50 ∧
    (appendAll [] sample150).length = 100 :=
  getHistory_bounded_roundtrip.2 sample150 rfl

/-! ## Guard behaviour on the just-appended sample

`checkLocationValidity` appends the new sample before running the guards,
so inside that entry point the history's last element is always the new
sample itself. -/

lemma checkImpossibleSpeed_appended (hav : ℚ → ℚ → ℚ → ℚ → ℚ)
    (history : List LocationPoint) (s : LocationPoint) :
    checkImpossibleSpeed hav (addLocationToHistory history s) s =
      ⟨false, "speed_normal", 0, .null⟩ := by
  unfold checkImpossibleSpeed
  rw [getLast?_addLocationToHistory]
  simp [speedSuspicious]

lemma checkTeleportation_appended (hav : ℚ → ℚ → ℚ → ℚ → ℚ)
    (history : List LocationPoint) (s : LocationPoint)
    (h0 : hav s.latitude s.longitude s.latitude s.longitude = 0) :
    checkTeleportation hav (addLocationToHistory history s) s =
      ⟨false, "movement_normal", 0, .null⟩ := by
  unfold checkTeleportation
  rw [getLast?_addLocationToHistory]
  simp [h0]

/-! ## C2 -/

/-- First sample of the fresh-session scenario. -/
def freshSample : LocationPoint := ⟨0, 0, 0, 10, none⟩

/-- **C2 counterexample**: on a fresh session the first evaluation's
SpeedGuard and TeleportGuard outcomes carry the reasons `speed_normal` and
`movement_normal`, not `no_previous_location`: `checkLocationValidity`
appends the sample before the guards run (source line 33), so the guards
never see an empty history — their `no_previous_location` branches (source
lines 156-158 and 229-231) are unreachable from this entry point. -/
theorem fresh_session_reasons_counterexample :
    (checkImpossibleSpeed havFlat
        (addLocationToHistory initialState.locationHistory freshSample)
        freshSample).reason = "speed_normal" ∧
    (checkTeleportation havFlat
        (addLocationToHistory initialState.locationHistory freshSample)
        freshSample).reason = "movement_normal" ∧
    ¬ (checkImpossibleSpeed havFlat
        (addLocationToHistory initialState.locationHistory freshSample)
        freshSample).reason = "no_previous_location" ∧
    ¬ (checkTeleportation havFlat
        (addLocationToHistory initialState.locationHistory freshSample)
        freshSample).reason = "no_previous_location" := by
  have hsp := checkImpossibleSpeed_appended havFlat
    initialState.locationHistory freshSample
  have htp := checkTeleportation_appended havFlat
    initialState.locationHistory freshSample
    (by norm_num [freshSample, havFlat, ratAbs])
  rw [hsp, htp]
  refine ⟨rfl, rfl, by decide, by decide⟩

/-- **C2 (amended)**: for a fresh session, evaluating the first sample
yields not-suspicious outcomes with reasons `speed_normal` from SpeedGuard
and `movement_normal` from TeleportGuard (not `no_previous_location`: the
sample is appended before the guards run, so each guard compares the
sample against itself), and `insufficient_pattern_data` from PatternGuard.
Holds for every distance function vanishing on identical points, hence for
the real haversine. -/
theorem fresh_session_first_sample (hav : ℚ → ℚ → ℚ → ℚ → ℚ)
    (s : LocationPoint)
    (h0 : hav s.latitude s.longitude s.latitude s.longitude = 0) :
    checkImpossibleSpeed hav (addLocationToHistory ([] : List LocationPoint) s) s =
      ⟨false, "speed_normal", 0, .null⟩ ∧
    checkTeleportation hav (addLocationToHistory ([] : List LocationPoint) s) s =
      ⟨false, "movement_normal", 0, .null⟩ ∧
    checkMovementPattern (addLocationToHistory ([] : List LocationPoint) s) s =
      ⟨false, "insufficient_pattern_data", 0, .null⟩ := by
  refine ⟨checkImpossibleSpeed_appended hav [] s,
    checkTeleportation_appended hav [] s h0, ?_⟩
  have hh : addLocationToHistory ([] : List LocationPoint) s = [s] := rfl
  rw [hh]
  simp [checkMovementPattern]

/-- Closed instance of the amended C2 statement. -/
theorem fresh_session_first_sample_witness :
    checkImpossibleSpeed havFlat
        (addLocationToHistory ([] : List LocationPoint) freshSample) freshSample =
      ⟨false, "speed_normal", 0, .null⟩ ∧
    checkTeleportation havFlat
        (addLocationToHistory ([] : List LocationPoint) freshSample) freshSample =
      ⟨false, "movement_normal", 0, .null⟩ ∧
    checkMovementPattern
        (addLocationToHistory ([] : List LocationPoint) freshSample) freshSample =
      ⟨false, "insufficient_pattern_data", 0, .null⟩ :=
  fresh_session_first_sample havFlat freshSample
    (by norm_num [freshSample, havFlat, ratAbs])

/-! ## C3 -/

/-- Previous accepted sample of the teleport scenario: lat 0, lon 0, t=0. -/
def teleportPrev : LocationPoint := ⟨0, 0, 0, 10, none⟩

/-- New sample of the teleport scenario: lat 0, lon 0.02, t=500 ms. -/
def teleportNext : LocationPoint := ⟨0, 2 / 100, 500, 10, none⟩

/-- **C3 (code bug)**: in the spec's teleport scenario the code returns the
`location_valid` zero verdict, not the suspicious `teleportation` / 95
verdict the claim, the source's own comment ("Check if moved a long
distance in a short time (teleportation)", lines 241-242) and the
repository README's "Teleportation detection" bullet describe: because
`checkLocationValidity` appends the new sample before running the guards,
`checkTeleportation` measures the distance from the new sample to itself,
which is `0` for any distance function vanishing on identical points
(haversine in particular), so `distance > 1` can never hold on this entry
point and the previous sample at (0, 0, t=0) is never consulted. -/
theorem teleport_scenario_code_bug (hav : ℚ → ℚ → ℚ → ℚ → ℚ)
    (hself : ∀ a b : ℚ, hav a b a b = 0) :
    (checkLocationValidity hav ⟨[teleportPrev], []⟩ teleportNext).1 =
      ⟨false, "location_valid", 0, none⟩ := by
  have hsp := checkImpossibleSpeed_appended hav [teleportPrev] teleportNext
  have htp := checkTeleportation_appended hav [teleportPrev] teleportNext
    (hself _ _)
  show aggregateChecks
      [checkImpossibleSpeed hav
          (addLocationToHistory [teleportPrev] teleportNext) teleportNext,
        checkLocationAccuracy teleportNext,
        checkMovementPattern
          (addLocationToHistory [teleportPrev] teleportNext) teleportNext,
        checkTeleportation hav
          (addLocationToHistory [teleportPrev] teleportNext) teleportNext] =
      ⟨false, "location_valid", 0, none⟩
  rw [hsp, htp]
  decide

/-- Closed instance of the C3 code-bug theorem, instantiated with a
concrete distance function vanishing on identical points. -/
theorem teleport_scenario_code_bug_witness :
    (checkLocationValidity havFlat ⟨[teleportPrev], []⟩ teleportNext).1 =
      ⟨false, "location_valid", 0, none⟩ :=
  teleport_scenario_code_bug havFlat (fun a b => by simp [havFlat, ratAbs])

/-! ## C6 -/

/-- **C6**: when the new sample's timestamp equals the last history
entry's timestamp (`timeDiffSeconds = 0`), the speed check's division
never corrupts the result: the guard returns the not-suspicious
`speed_normal` outcome with risk score 0; moreover the suspicion test is
false at `timeDiff = 0` for *every* possible value of the computed speed
(covering the IEEE `NaN`/`Infinity` the source's division by zero would
produce, since `timeDiff > 5` fails), and inside `checkLocationValidity`
— where the last entry is the just-appended sample, so `timeDiff` is
always 0 — the speed contribution to the verdict's score is always 0. -/
theorem speed_guard_zero_time_diff (hav : ℚ → ℚ → ℚ → ℚ → ℚ)
    (history : List LocationPoint) (s lastLocation : LocationPoint)
    (hlast : history.getLast? = some lastLocation)
    (ht : s.timestamp = lastLocation.timestamp) :
    checkImpossibleSpeed hav history s = ⟨false, "speed_normal", 0, .null⟩ ∧
    (∀ v : ℚ, speedSuspicious v 0 = false) ∧
    (∀ st : FraudState,
      (checkImpossibleSpeed hav
          (addLocationToHistory st.locationHistory s) s).riskScore = 0) := by
  refine ⟨?_, ?_, ?_⟩
  · unfold checkImpossibleSpeed
    rw [hlast]
    simp [speedSuspicious, ht]
  · intro v
    simp [speedSuspicious]
  · intro st
    rw [checkImpossibleSpeed_appended]

/-- Closed instance of the C6 theorem. -/
theorem speed_guard_zero_time_diff_witness :
    checkImpossibleSpeed havFlat [freshSample] freshSample =
      ⟨false, "speed_normal", 0, .null⟩ :=
  (speed_guard_zero_time_diff havFlat [freshSample] freshSample freshSample
    rfl rfl).1

/-! ## C5 -/

/-- Spec-side PatternGuard rule: duplicate count stated via `countP` over
the (already updated) history. -/
def patternSpec (history : List LocationPoint) (newLocation : LocationPoint) :
    CheckOutcome :=
  if history.length < 5 then
    ⟨false, "insufficient_pattern_data", 0, .null⟩
  else
    let dupCount := history.countP (fun loc => nearIdentical loc newLocation)
    if dupCount > 3 then
      ⟨true, "identical_coordinates", 70,
        .pattern dupCount (newLocation.latitude, newLocation.longitude)⟩
    else
      ⟨false, "pattern_normal", 0, .null⟩

lemma checkMovementPattern_eq_patternSpec (history : List LocationPoint)
    (s : LocationPoint) :
    checkMovementPattern history s = patternSpec history s := by
  unfold checkMovementPattern patternSpec
  rw [List.countP_eq_length_filter]

/-- Samples of the duplicate-coordinates scenario: five samples at
(1.0, 1.0), accuracy 10 ≤ 100, 10 s apart. -/
def dupSample0 : LocationPoint := ⟨1, 1, 0, 10, none⟩

/-- Second sample of the duplicate-coordinates scenario. -/
def dupSample1 : LocationPoint := ⟨1, 1, 10000, 10, none⟩

/-- Third sample of the duplicate-coordinates scenario. -/
def dupSample2 : LocationPoint := ⟨1, 1, 20000, 10, none⟩

/-- Fourth sample of the duplicate-coordinates scenario. -/
def dupSample3 : LocationPoint := ⟨1, 1, 30000, 10, none⟩

/-- Fifth sample of the duplicate-coordinates scenario. -/
def dupSample4 : LocationPoint := ⟨1, 1, 40000, 10, none⟩

/-- The fifth evaluation of the duplicate-coordinates scenario. -/
def dupRun5 : LocationVerdict × FraudState :=
  checkLocationValidity havFlat
    (checkLocationValidity havFlat
      (checkLocationValidity havFlat
        (checkLocationValidity havFlat
          (checkLocationValidity havFlat initialState dupSample0).2
          dupSample1).2 dupSample2).2 dupSample3).2 dupSample4

lemma nearIdentical_ones (x y : LocationPoint)
    (hx1 : x.latitude = 1) (hx2 : x.longitude = 1)
    (hy1 : y.latitude = 1) (hy2 : y.longitude = 1) :
    nearIdentical x y = true := by
  unfold nearIdentical
  rw [hx1, hx2, hy1, hy2]
  norm_num [ratAbs]

lemma dupRun5_patternCheck :
    checkMovementPattern
        (addLocationToHistory [dupSample0, dupSample1, dupSample2, dupSample3]
          dupSample4) dupSample4 =
      ⟨true, "identical_coordinates", 70, .pattern 5 (1, 1)⟩ := by
  have hh : addLocationToHistory [dupSample0, dupSample1, dupSample2, dupSample3]
      dupSample4 =
      [dupSample0, dupSample1, dupSample2, dupSample3, dupSample4] := rfl
  rw [hh]
  have hfilter :
      [dupSample0, dupSample1, dupSample2, dupSample3, dupSample4].filter
        (fun loc => nearIdentical loc dupSample4) =
      [dupSample0, dupSample1, dupSample2, dupSample3, dupSample4] := by
    rw [List.filter_eq_self]
    intro a ha
    fin_cases ha <;> exact nearIdentical_ones _ _ rfl rfl rfl rfl
  unfold checkMovementPattern
  rw [if_neg (by decide)]
  simp only [hfilter]
  rw [if_pos (by decide)]
  rfl

lemma dupRun5_verdict :
    dupRun5.1 = ⟨true, "identical_coordinates", 70,
      some [⟨true, "identical_coordinates", 70, .pattern 5 (1, 1)⟩]⟩ := by
  have h1 : dupRun5.1 = aggregateChecks
      [checkImpossibleSpeed havFlat
          (addLocationToHistory
            [dupSample0, dupSample1, dupSample2, dupSample3] dupSample4)
          dupSample4,
        checkLocationAccuracy dupSample4,
        checkMovementPattern
          (addLocationToHistory
            [dupSample0, dupSample1, dupSample2, dupSample3] dupSample4)
          dupSample4,
        checkTeleportation havFlat
          (addLocationToHistory
            [dupSample0, dupSample1, dupSample2, dupSample3] dupSample4)
          dupSample4] := rfl
  rw [h1, checkImpossibleSpeed_appended,
    checkTeleportation_appended _ _ _ (by norm_num [dupSample4, havFlat, ratAbs]),
    dupRun5_patternCheck]
  decide

/-- **C5 counterexample**: in the duplicate-coordinates scenario the fifth
evaluation's PatternGuard reports duplicate count **5**, not 4 as the
claim states: `checkLocationValidity` appends the sample before the guards
run, so the just-appended fifth sample matches itself and is counted along
with the four earlier identical samples (`history.filter` at source lines
208-211 runs over the updated history). -/
theorem duplicate_count_counterexample :
    dupRun5.1 = ⟨true, "identical_coordinates", 70,
      some [⟨true, "identical_coordinates", 70, .pattern 5 (1, 1)⟩]⟩ ∧
    dupRun5.1.details ≠
      some [⟨true, "identical_coordinates", 70, .pattern 4 (1, 1)⟩] := by
  refine ⟨dupRun5_verdict, ?_⟩
  rw [dupRun5_verdict]
  decide

/-- **C5 (amended)**: PatternGuard returns `insufficient_pattern_data`
(not suspicious) whenever the updated history's length is below 5, counts
the entries of the updated history — which includes the just-appended
sample — whose latitude and longitude each differ from the new sample by
less than 1e-6 degrees, and is suspicious with reason
`identical_coordinates` and fixed score 70 exactly when that count exceeds
3; in the five-identical-samples scenario the fifth evaluation flags
`identical_coordinates` with duplicate count **5** (4 earlier samples plus
the new sample itself). -/
theorem patternGuard_duplicate_rule :
    (∀ (history : List LocationPoint) (s : LocationPoint),
        checkMovementPattern history s = patternSpec history s) ∧
    dupRun5.1 = ⟨true, "identical_coordinates", 70,
      some [⟨true, "identical_coordinates", 70, .pattern 5 (1, 1)⟩]⟩ :=
  ⟨checkMovementPattern_eq_patternSpec, dupRun5_verdict⟩

/-! ## C7 -/

/-- Spec-side ExplorationRateGuard rule: record the visit, prune entries
at or before the one-hour horizon, count the last-minute entries via
`countP`, flag `rapid_exploration` with score 85 exactly when the count
exceeds the threshold 8; the returned details carry the count and the
threshold. -/
def explorationSpec (st : FraudState) (tileId : String) (now : ℚ) :
    CheckOutcome × FraudState :=
  let kept := (st.tileExplorationHistory ++ [(⟨tileId, now⟩ : TileRecord)]).filter
      (fun record => decide (record.timestamp > now - 60 * 60 * 1000))
  let count := kept.countP
      (fun record => decide (record.timestamp > now - 60 * 1000))
  let st' : FraudState := ⟨st.locationHistory, kept⟩
  if count > RAPID_EXPLORATION_THRESHOLD then
    (⟨true, "rapid_exploration", 85,
      .exploration count RAPID_EXPLORATION_THRESHOLD⟩, st')
  else
    (⟨false, "exploration_rate_normal", 0, .null⟩, st')

lemma checkExplorationRate_state (st : FraudState) (tileId : String)
    (now : ℚ) :
    (checkExplorationRate st tileId now).2 =
      ⟨st.locationHistory,
        (st.tileExplorationHistory ++ [(⟨tileId, now⟩ : TileRecord)]).filter
          (fun record => decide (record.timestamp > now - 60 * 60 * 1000))⟩ := by
  simp only [checkExplorationRate]
  split <;> rfl

lemma checkExplorationRate_eq_explorationSpec (st : FraudState)
    (tileId : String) (now : ℚ) :
    checkExplorationRate st tileId now = explorationSpec st tileId now := by
  simp only [checkExplorationRate, explorationSpec]
  rw [List.countP_eq_length_filter]

/-- The ninth discovery call of the exploration-rate scenario: nine
distinct tiles, one second apart, all within the last minute. -/
def tileRun9 : CheckOutcome × FraudState :=
  let r1 := checkExplorationRate initialState ("t1") 0
  let r2 := checkExplorationRate r1.2 ("t2") 1000
  let r3 := checkExplorationRate r2.2 ("t3") 2000
  let r4 := checkExplorationRate r3.2 ("t4") 3000
  let r5 := checkExplorationRate r4.2 ("t5") 4000
  let r6 := checkExplorationRate r5.2 ("t6") 5000
  let r7 := checkExplorationRate r6.2 ("t7") 6000
  let r8 := checkExplorationRate r7.2 ("t8") 7000
  checkExplorationRate r8.2 ("t9") 8000

lemma tileRun9_outcome :
    tileRun9.1 = ⟨true, "rapid_exploration", 85, .exploration 9 8⟩ := by
  norm_num [tileRun9, checkExplorationRate, initialState,
    RAPID_EXPLORATION_THRESHOLD, List.filter]

/-- **C7 counterexample**: in the nine-discoveries-in-a-minute scenario
the ninth call returns the suspicious `rapid_exploration` outcome with
score 85 whose `details` object is `{tilesPerMinute: 9, threshold: 8}`
(source lines 112-115) — it carries the count and the threshold but *no*
list of recent tile ids, contrary to the claim; the tile-id list is passed
only to the fire-and-forget analytics emission (source line 105), not
returned to the caller. -/
theorem exploration_details_counterexample :
    tileRun9.1 = ⟨true, "rapid_exploration", 85, .exploration 9 8⟩ ∧
    tileRun9.1.details = .exploration 9 8 := by
  refine ⟨tileRun9_outcome, ?_⟩
  rw [tileRun9_outcome]

/-- **C7 (amended)**: on every tile-discovery event the engine records
`{tileId, now}`, prunes the entries at or before the one-hour horizon
(every surviving record is strictly newer than `now` minus one hour),
counts the entries strictly within the last 60000 ms, and returns a
suspicious outcome with reason `rapid_exploration`, fixed risk score 85
and details carrying that count and the threshold 8 — the recent tile-id
list goes only to the analytics emission, not into the returned details —
exactly when the count exceeds 8; nine distinct discovery calls within 60
seconds make the ninth call report `rapid_exploration` with recent-tile
count 9. -/
theorem explorationRate_rule :
    (∀ (st : FraudState) (tileId : String) (now : ℚ),
        checkExplorationRate st tileId now = explorationSpec st tileId now) ∧
    (∀ (st : FraudState) (tileId : String) (now : ℚ),
        ∀ r ∈ (checkExplorationRate st tileId now).2.tileExplorationHistory,
          r.timestamp > now - 60 * 60 * 1000) ∧
    tileRun9.1 = ⟨true, "rapid_exploration", 85, .exploration 9 8⟩ := by
  refine ⟨checkExplorationRate_eq_explorationSpec, ?_, tileRun9_outcome⟩
  intro st tileId now r hr
  rw [checkExplorationRate_state] at hr
  have := List.of_mem_filter hr
  simpa using this

/-- Closed instance of the C7 pruning clause. -/
theorem explorationRate_rule_witness :
    (⟨"t1", 0⟩ : TileRecord).timestamp > (0 : ℚ) - 60 * 60 * 1000 :=
  explorationRate_rule.2.1 initialState ("t1") 0 ⟨"t1", 0⟩
    (by norm_num [checkExplorationRate, initialState,
      RAPID_EXPLORATION_THRESHOLD, List.filter])

/-! ## C8 -/

/-- A well-formed risk score: a natural number at most 100 (hence an
integer in the range [0, 100]). -/
def scoreOK (q : ℚ) : Prop := ∃ n : ℕ, q = (n : ℚ) ∧ n ≤ 100

lemma checkLocationAccuracy_scoreOK (s : LocationPoint) :
    scoreOK (checkLocationAccuracy s).riskScore := by
  unfold checkLocationAccuracy
  split
  · exact ⟨30, by norm_num⟩
  · exact ⟨0, by norm_num⟩

lemma checkMovementPattern_scoreOK (history : List LocationPoint)
    (s : LocationPoint) :
    scoreOK (checkMovementPattern history s).riskScore := by
  simp only [checkMovementPattern]
  split
  · exact ⟨0, by norm_num⟩
  · split
    · exact ⟨70, by norm_num⟩
    · exact ⟨0, by norm_num⟩

lemma checkTeleportation_scoreOK (hav : ℚ → ℚ → ℚ → ℚ → ℚ)
    (history : List LocationPoint) (s : LocationPoint) :
    scoreOK (checkTeleportation hav history s).riskScore := by
  simp only [checkTeleportation]
  split
  · exact ⟨0, by norm_num⟩
  · split
    · exact ⟨95, by norm_num⟩
    · exact ⟨0, by norm_num⟩

lemma checkExplorationRate_scoreOK (st : FraudState) (tileId : String)
    (now : ℚ) :
    scoreOK (checkExplorationRate st tileId now).1.riskScore := by
  simp only [checkExplorationRate]
  split
  · exact ⟨85, by norm_num⟩
  · exact ⟨0, by norm_num⟩

lemma checkAutomationPattern_scoreOK (hav : ℚ → ℚ → ℚ → ℚ → ℚ)
    (st : FraudState) :
    scoreOK (checkAutomationPattern hav st).riskScore := by
  simp only [checkAutomationPattern]
  split
  · exact ⟨0, by norm_num⟩
  · split
    · exact ⟨95, by norm_num⟩
    · exact ⟨0, by norm_num⟩

lemma aggregateChecks_scoreOK (checks : List CheckOutcome)
    (h : ∀ c ∈ checks, scoreOK c.riskScore) :
    scoreOK (aggregateChecks checks).riskScore := by
  rw [aggregateChecks_eq_spec]
  unfold aggregateSpec
  cases hf : checks.filter (fun check => check.isSuspicious) with
  | nil => exact ⟨0, by norm_num⟩
  | cons c cs =>
    show scoreOK (maxScoreSpec c.riskScore (cs.map (fun check => check.riskScore)))
    have hc : c ∈ checks := by
      refine List.mem_of_mem_filter (p := fun check => check.isSuspicious) ?_
      rw [hf]
      exact List.mem_cons_self c cs
    rcases foldr_max_mem (cs.map (fun check => check.riskScore)) c.riskScore
      with hm | hm
    · show scoreOK ((cs.map (fun check => check.riskScore)).foldr max c.riskScore)
      rw [hm]
      exact h c hc
    · rcases List.mem_map.mp hm with ⟨d, hd, hds⟩
      have hdc : d ∈ checks := by
        refine List.mem_of_mem_filter (p := fun check => check.isSuspicious) ?_
        rw [hf]
        exact List.mem_cons_of_mem c hd
      show scoreOK ((cs.map (fun check => check.riskScore)).foldr max c.riskScore)
      rw [← hds]
      exact h d hdc

/-- **C8**: every risk score the engine produces is an integer in the
range [0, 100]: the aggregated verdict of `checkLocationValidity`, each of
the four per-sample guard outcomes it aggregates (evaluated, as in the
source, against the history updated with the new sample), the
exploration-rate outcome, and the automation outcome. -/
theorem riskScores_bounded (hav : ℚ → ℚ → ℚ → ℚ → ℚ) (st : FraudState)
    (s : LocationPoint) (tileId : String) (now : ℚ) :
    scoreOK (checkLocationValidity hav st s).1.riskScore ∧
    scoreOK (checkImpossibleSpeed hav
        (addLocationToHistory st.locationHistory s) s).riskScore ∧
    scoreOK (checkLocationAccuracy s).riskScore ∧
    scoreOK (checkMovementPattern
        (addLocationToHistory st.locationHistory s) s).riskScore ∧
    scoreOK (checkTeleportation hav
        (addLocationToHistory st.locationHistory s) s).riskScore ∧
    scoreOK (checkExplorationRate st tileId now).1.riskScore ∧
    scoreOK (checkAutomationPattern hav st).riskScore := by
  have hsp : scoreOK (checkImpossibleSpeed hav
      (addLocationToHistory st.locationHistory s) s).riskScore := by
    rw [checkImpossibleSpeed_appended]
    exact ⟨0, by norm_num⟩
  refine ⟨?_, hsp, checkLocationAccuracy_scoreOK s,
    checkMovementPattern_scoreOK _ s, checkTeleportation_scoreOK hav _ s,
    checkExplorationRate_scoreOK st tileId now,
    checkAutomationPattern_scoreOK hav st⟩
  show scoreOK (aggregateChecks
      [checkImpossibleSpeed hav (addLocationToHistory st.locationHistory s) s,
        checkLocationAccuracy s,
        checkMovementPattern (addLocationToHistory st.locationHistory s) s,
        checkTeleportation hav
          (addLocationToHistory st.locationHistory s) s]).riskScore
  refine aggregateChecks_scoreOK _ ?_
  intro c hc
  fin_cases hc
  · exact hsp
  · exact checkLocationAccuracy_scoreOK s
  · exact checkMovementPattern_scoreOK _ s
  · exact checkTeleportation_scoreOK hav _ s

/-! ## C9 -/

/-- Ten-sample history used to instantiate the automation analyzer. -/
def autoHistory : List LocationPoint :=
  [⟨0, 0, 0, 10, none⟩, ⟨0, 0, 1000, 10, none⟩, ⟨0, 0, 2000, 10, none⟩,
   ⟨0, 0, 3000, 10, none⟩, ⟨0, 0, 4000, 10, none⟩, ⟨0, 0, 5000, 10, none⟩,
   ⟨0, 0, 6000, 10, none⟩, ⟨0, 0, 7000, 10, none⟩, ⟨0, 0, 8000, 10, none⟩,
   ⟨0, 0, 9000, 10, none⟩]

/-- **C9**: the automation check requires history length at least 10
(otherwise `insufficient_data`, not suspicious, as the last conjunct
states for every state); given that, it analyzes the most recent 20
history samples (fewer if the history is shorter) and is suspicious with
reason `automation_detected` and fixed score 95 exactly when at least one
of `perfectTiming` (interval variance below 100 ms²), `unnaturalPrecision`
(every consecutive step distance strictly between 0 and 0.001 km) or
`repetitiveMovement` (each of the first 3 window samples within 1e-4
degrees on both axes of the sample at the same offset in the next 3)
holds, and not suspicious with reason `human_behavior` otherwise — the
interval statistics being populated in the details in both cases via the
`patterns` record. -/
theorem automationAnalyzer_rule (hav : ℚ → ℚ → ℚ → ℚ → ℚ) (st : FraudState)
    (h10 : 10 ≤ st.locationHistory.length) :
    (((analyzeMovementPatterns hav st.locationHistory).perfectTiming = true ∨
        (analyzeMovementPatterns hav st.locationHistory).unnaturalPrecision = true ∨
        (analyzeMovementPatterns hav st.locationHistory).repetitiveMovement = true) →
      checkAutomationPattern hav st =
        ⟨true, "automation_detected", 95,
          .automation (analyzeMovementPatterns hav st.locationHistory)⟩) ∧
    ((analyzeMovementPatterns hav st.locationHistory).perfectTiming = false →
      (analyzeMovementPatterns hav st.locationHistory).unnaturalPrecision = false →
      (analyzeMovementPatterns hav st.locationHistory).repetitiveMovement = false →
      checkAutomationPattern hav st =
        ⟨false, "human_behavior", 0,
          .automation (analyzeMovementPatterns hav st.locationHistory)⟩) ∧
    ((analyzeMovementPatterns hav st.locationHistory).perfectTiming = true ↔
      (analyzeMovementPatterns hav st.locationHistory).intervalVariance < 100) ∧
    ((analyzeMovementPatterns hav st.locationHistory).unnaturalPrecision = true ↔
      ∀ d ∈ distancesOf hav
          (st.locationHistory.drop (st.locationHistory.length - 20)),
        0 < d ∧ d < 1 / 1000) ∧
    ((analyzeMovementPatterns hav st.locationHistory).repetitiveMovement = true ↔
      ∀ p ∈ ((st.locationHistory.drop (st.locationHistory.length - 20)).take 3).zip
          (((st.locationHistory.drop (st.locationHistory.length - 20)).drop 3).take 3),
        ratAbs (p.1.latitude - p.2.latitude) < 1 / 10000 ∧
        ratAbs (p.1.longitude - p.2.longitude) < 1 / 10000) ∧
    (∀ st' : FraudState, st'.locationHistory.length < 10 →
      checkAutomationPattern hav st' = ⟨false, "insufficient_data", 0, .null⟩) := by
  have hnot : ¬ st.locationHistory.length < 10 := Nat.not_lt.mpr h10
  refine ⟨?_, ?_, ?_, ?_, ?_, ?_⟩
  · intro hb
    simp only [checkAutomationPattern, if_neg hnot]
    rw [if_pos]
    simp only [Bool.or_eq_true]
    tauto
  · intro h1 h2 h3
    simp only [checkAutomationPattern, if_neg hnot]
    rw [if_neg]
    simp only [Bool.or_eq_true, h1, h2, h3]
    simp
  · simp only [analyzeMovementPatterns]
    exact decide_eq_true_iff
  · simp only [analyzeMovementPatterns, List.all_eq_true, Bool.and_eq_true,
      decide_eq_true_iff, gt_iff_lt]
  · simp only [analyzeMovementPatterns]
    have hw : ¬ (st.locationHistory.drop
        (st.locationHistory.length - 20)).length < 6 := by
      rw [List.length_drop]
      omega
    simp only [detectRepetitivePattern, if_neg hw, List.all_eq_true,
      Bool.and_eq_true, decide_eq_true_iff]
  · intro st' hlt
    simp only [checkAutomationPattern, if_pos hlt]

/-- Closed instance of the C9 theorem: the `perfectTiming` clause at a
10-sample history. -/
theorem automationAnalyzer_rule_witness :
    ((analyzeMovementPatterns havFlat autoHistory).perfectTiming = true ↔
      (analyzeMovementPatterns havFlat autoHistory).intervalVariance < 100) :=
  (automationAnalyzer_rule havFlat ⟨autoHistory, []⟩ (by decide)).2.2.1

end FraudDetection
